import Mathlib

/-!
A verification development for the on-chain swap simulation subsystem of the
compare-aggregators repository.  The TypeScript sources are shallowly embedded:
pure helpers become Lean functions, the stateful interaction with the forked
node becomes explicit state passing over a model of the node (contract storage,
native balances, the process-wide balance-slot cache), and fallible operations
return `Except`.  Machine integers are modelled as `Nat`/`Int`; the
double-precision arithmetic of `calculateGasCostInTokenOut` is modelled by an
explicit binary64 rounding function on rationals.
-/

/-! ## Strings: substring containment and lower-casing

`String.prototype.includes` and `toLowerCase` from the TypeScript sources,
modelled on the character list of a `String`. -/

/-- Does the pattern occur as a leading segment of the text? -/
def hasPrefixC : List Char → List Char → Bool
  | [], _ => true
  | _ :: _, [] => false
  | p :: ps, t :: ts => p == t && hasPrefixC ps ts

/-- Does the pattern occur as a contiguous segment anywhere in the text? -/
def hasInfixC (p : List Char) : List Char → Bool
  | [] => p.isEmpty
  | c :: ts => hasPrefixC p (c :: ts) || hasInfixC p ts

/-- JavaScript `s.includes(pat)`. -/
def containsSub (s pat : String) : Bool := hasInfixC pat.data s.data

/-- ASCII lower-casing of one character, as `toLowerCase` acts on the
error messages appearing in this code base. -/
def lowerChar (c : Char) : Char :=
  if 'A' ≤ c ∧ c ≤ 'Z' then Char.ofNat (c.toNat + 32) else c

/-- JavaScript `s.toLowerCase()` for the ASCII strings of this code base. -/
def toLowerStr (s : String) : String := ⟨s.data.map lowerChar⟩

/-! ## RetryExecutor (src/utils/retry.ts)

`defaultShouldRetry` and `retryWithBackoff`.  An operation is modelled as a
function from the attempt number (1-based) to `Except E A`, so that one run of
the retry loop is a pure computation.  The run records the result, how many
times the operation was invoked, and the list of delays slept between
attempts. -/

/-- Function `defaultShouldRetry` from src/utils/retry.ts: the branch structure of the
source, over the lower-cased `error.message` and `error.details` (an absent
`details` field is the empty string). -/
def defaultShouldRetry (message details : String) : Bool :=
  let errorMessage := toLowerStr message
  let errorDetails := toLowerStr details
  if containsSub errorMessage "timeout" || containsSub errorDetails "timeout" then true
  else if containsSub errorMessage "econnrefused" || containsSub errorMessage "econnreset" then true
  else if containsSub errorMessage "rate limit" || containsSub errorMessage "too many requests" then true
  else if containsSub errorMessage "network" || containsSub errorMessage "fetch failed" then true
  else if containsSub errorMessage "block requested not found" ||
          containsSub errorDetails "block requested not found" then true
  else if containsSub errorMessage "revert" && !containsSub errorMessage "timeout" then false
  else false

/-- Outcome of one run of `retryWithBackoff`: the value or the rethrown error
(`Except.error none` models the unreachable trailing `throw lastError` with no
recorded error), the number of invocations of the operation, and the delays
slept between attempts. -/
structure RetryRun (E A : Type) where
  result : Except (Option E) A
  calls : Nat
  delays : List Nat
deriving Repr

/-- The `for (attempt = 1; attempt <= maxAttempts; ...)` loop of
`retryWithBackoff`.  `fuel` counts the loop iterations still permitted
(`maxAttempts - attempt + 1` at entry), `attempt` and `delay` are the loop
variables of the source, `calls`/`delays`/`lastErr` accumulate the run. -/
def retryLoop {E A : Type} (fn : Nat → Except E A) (maxAttempts mult maxDelay : Nat)
    (shouldRetry : E → Bool) :
    Nat → Nat → Nat → Nat → List Nat → Option E → RetryRun E A
  | 0, _, _, calls, delays, lastErr => ⟨.error lastErr, calls, delays⟩
  | fuel + 1, attempt, delay, calls, delays, _ =>
    match fn attempt with
    | .ok a => ⟨.ok a, calls + 1, delays⟩
    | .error e =>
      if attempt == maxAttempts || !shouldRetry e then ⟨.error (some e), calls + 1, delays⟩
      else
        retryLoop fn maxAttempts mult maxDelay shouldRetry
          fuel (attempt + 1) (min (delay * mult) maxDelay) (calls + 1) (delays ++ [delay]) (some e)

/-- Function `retryWithBackoff(fn, options)` with every option explicit. -/
def retryWithBackoff {E A : Type} (fn : Nat → Except E A)
    (maxAttempts initialDelay maxDelay mult : Nat) (shouldRetry : E → Bool) : RetryRun E A :=
  retryLoop fn maxAttempts mult maxDelay shouldRetry maxAttempts 1 initialDelay 0 [] none

/-- An error value as the classifier sees it: its `message` and `details`. -/
abbrev JsError : Type := String × String

/-- The call `retryWithBackoff(fn, ...)` with no options: the defaults `maxAttempts = 3`,
`initialDelay = 1000`, `maxDelay = 30000`, `backoffMultiplier = 2` and the
default classifier. -/
def retryWithBackoffDefaults {A : Type} (fn : Nat → Except JsError A) : RetryRun JsError A :=
  retryWithBackoff fn 3 1000 30000 2 (fun e => defaultShouldRetry e.1 e.2)

/-- Helper: with `maxAttempts = 3`, an operation failing retryably twice and
succeeding on the third attempt yields the success after exactly three
invocations. -/
lemma retryRun_two_failures_then_success {E A : Type} (fn : Nat → Except E A)
    (e1 e2 : E) (a : A) (sr : E → Bool) (d0 dM m : Nat)
    (h1 : fn 1 = .error e1) (h2 : fn 2 = .error e2) (h3 : fn 3 = .ok a)
    (hr1 : sr e1 = true) (hr2 : sr e2 = true) :
    (retryWithBackoff fn 3 d0 dM m sr).result = .ok a ∧
      (retryWithBackoff fn 3 d0 dM m sr).calls = 3 := by
  simp [retryWithBackoff, retryLoop, h1, h2, h3, hr1, hr2]

/-- Helper: a first error classified non-retryable is rethrown after one
invocation, with no delay slept. -/
lemma retryRun_nonretryable_once {E A : Type} (fn : Nat → Except E A)
    (e : E) (sr : E → Bool) (d0 dM m : Nat)
    (h1 : fn 1 = .error e) (hr : sr e = false) :
    (retryWithBackoff fn 3 d0 dM m sr).result = .error (some e) ∧
      (retryWithBackoff fn 3 d0 dM m sr).calls = 1 ∧
      (retryWithBackoff fn 3 d0 dM m sr).delays = [] := by
  simp [retryWithBackoff, retryLoop, h1, hr]

/-- C9: under `retryWithBackoff` with `maxAttempts = 3`, an operation that
fails twice with retryable errors and then succeeds is invoked exactly 3 times
and its success value is returned; an operation whose first error is
classified non-retryable is invoked exactly once and the error is rethrown
with no delay slept. -/
theorem retryWithBackoff_maxAttempts3_behaviour {E A : Type} (fn gn : Nat → Except E A)
    (e1 e2 e : E) (a : A) (sr : E → Bool) (d0 dM m : Nat)
    (h1 : fn 1 = .error e1) (h2 : fn 2 = .error e2) (h3 : fn 3 = .ok a)
    (hr1 : sr e1 = true) (hr2 : sr e2 = true)
    (g1 : gn 1 = .error e) (gr : sr e = false) :
    ((retryWithBackoff fn 3 d0 dM m sr).result = .ok a ∧
      (retryWithBackoff fn 3 d0 dM m sr).calls = 3) ∧
    ((retryWithBackoff gn 3 d0 dM m sr).result = .error (some e) ∧
      (retryWithBackoff gn 3 d0 dM m sr).calls = 1 ∧
      (retryWithBackoff gn 3 d0 dM m sr).delays = []) :=
  ⟨retryRun_two_failures_then_success fn e1 e2 a sr d0 dM m h1 h2 h3 hr1 hr2,
   retryRun_nonretryable_once gn e sr d0 dM m g1 gr⟩

/-- Witness for C9 at a concrete operation: fails twice retryably then
returns 7; a second operation fails with a non-retryable error. -/
theorem retryWithBackoff_maxAttempts3_behaviour_witness :
    ((retryWithBackoff (fun n => if n = 3 then .ok 7 else .error "transient") 3 1000 30000 2
        (fun s => s == "transient")).result = .ok 7 ∧
      (retryWithBackoff (fun n => if n = 3 then .ok 7 else .error "transient") 3 1000 30000 2
        (fun s => s == "transient")).calls = 3) ∧
    ((retryWithBackoff (fun _ => (.error "fatal" : Except String Nat)) 3 1000 30000 2
        (fun s => s == "transient")).result = .error (some "fatal") ∧
      (retryWithBackoff (fun _ => (.error "fatal" : Except String Nat)) 3 1000 30000 2
        (fun s => s == "transient")).calls = 1 ∧
      (retryWithBackoff (fun _ => (.error "fatal" : Except String Nat)) 3 1000 30000 2
        (fun s => s == "transient")).delays = []) :=
  retryWithBackoff_maxAttempts3_behaviour
    (fun n => if n = 3 then .ok 7 else .error "transient")
    (fun _ => (.error "fatal" : Except String Nat))
    "transient" "transient" "fatal" 7 (fun s => s == "transient") 1000 30000 2
    rfl rfl rfl (by decide) (by decide) rfl (by decide)

/-- C10: an error whose lower-cased message and details contain none of the
recognized patterns is classified non-retryable by `defaultShouldRetry`, so
`retryWithBackoff` with default options invokes the operation exactly once and
rethrows the error without sleeping. -/
theorem defaultShouldRetry_unrecognized_error_not_retried
    (message details : String) {A : Type} (fn : Nat → Except JsError A)
    (hfn : fn 1 = .error (message, details))
    (h1 : containsSub (toLowerStr message) "timeout" = false)
    (h2 : containsSub (toLowerStr details) "timeout" = false)
    (h3 : containsSub (toLowerStr message) "econnrefused" = false)
    (h4 : containsSub (toLowerStr message) "econnreset" = false)
    (h5 : containsSub (toLowerStr message) "rate limit" = false)
    (h6 : containsSub (toLowerStr message) "too many requests" = false)
    (h7 : containsSub (toLowerStr message) "network" = false)
    (h8 : containsSub (toLowerStr message) "fetch failed" = false)
    (h9 : containsSub (toLowerStr message) "block requested not found" = false)
    (h10 : containsSub (toLowerStr details) "block requested not found" = false)
    (h11 : containsSub (toLowerStr message) "revert" = false) :
    defaultShouldRetry message details = false ∧
      (retryWithBackoffDefaults fn).result = .error (some (message, details)) ∧
      (retryWithBackoffDefaults fn).calls = 1 ∧
      (retryWithBackoffDefaults fn).delays = [] := by
  have hd : defaultShouldRetry message details = false := by
    simp [defaultShouldRetry, h1, h2, h3, h4, h5, h6, h7, h8, h9, h10, h11]
  refine ⟨hd, ?_⟩
  have := retryRun_nonretryable_once fn (message, details)
    (fun e => defaultShouldRetry e.1 e.2) 1000 30000 2 hfn hd
  exact ⟨this.1, this.2.1, this.2.2⟩

/-- Witness for C10 at the concrete error message "insufficient funds". -/
theorem defaultShouldRetry_unrecognized_error_not_retried_witness :
    defaultShouldRetry "insufficient funds" "" = false ∧
      (retryWithBackoffDefaults (fun _ => (.error ("insufficient funds", "") : Except JsError Nat))).result
        = .error (some ("insufficient funds", "")) ∧
      (retryWithBackoffDefaults (fun _ => (.error ("insufficient funds", "") : Except JsError Nat))).calls = 1 ∧
      (retryWithBackoffDefaults (fun _ => (.error ("insufficient funds", "") : Except JsError Nat))).delays = [] :=
  defaultShouldRetry_unrecognized_error_not_retried "insufficient funds" ""
    (fun _ => (.error ("insufficient funds", "") : Except JsError Nat)) rfl
    (by decide) (by decide) (by decide) (by decide) (by decide) (by decide)
    (by decide) (by decide) (by decide) (by decide) (by decide)

/-! ## GasAccountant (compare.ts: calculateGasCostInTokenOut, calculateNetAmount)

`calculateGasCostInTokenOut` converts the wei gas cost through JavaScript
`Number` arithmetic: `Number(gasCostInWei) / 10 ** 18 * monPriceInToken`
followed by `Math.floor(x * 10 ** tokenOutDecimals)`.  Each `Number` operation
is an IEEE-754 binary64 operation, modelled here by `rnd64`, the
round-to-nearest (ties to even) projection of an exact value onto the 53-bit
significand grid.  The values reached by this code are far inside the normal
range, so neither subnormals nor overflow are modelled.  Exact values are
carried as unnormalized fractions of integers (`Frac`), which the kernel
evaluates directly. -/

/-- An exact fraction `num / den`.  Every `Frac` built below has a positive
denominator; fractions are never reduced. -/
structure Frac where
  num : Int
  den : Int
deriving DecidableEq, Repr

/-- The fraction `n / 1`. -/
def Frac.ofInt (n : Int) : Frac := ⟨n, 1⟩

/-- Product of fractions. -/
def Frac.mul (x y : Frac) : Frac := ⟨x.num * y.num, x.den * y.den⟩

/-- Quotient of fractions; used only with a positive divisor. -/
def Frac.div (x y : Frac) : Frac := ⟨x.num * y.den, x.den * y.num⟩

/-- Comparison `x ≤ y` for fractions with positive denominators. -/
def Frac.le (x y : Frac) : Bool := x.num * y.den ≤ y.num * x.den

/-- The `Math.floor` of an exact fraction (positive denominator). -/
def Frac.floor (x : Frac) : Int := Int.fdiv x.num x.den

/-- Floor of the exponent base 2 by repeated halving; `fuel` bounds the
recursion and 300 is ample for every number reached here. -/
def log2fuel : Nat → Nat → Nat
  | 0, _ => 0
  | fuel + 1, n => if 2 ≤ n then log2fuel fuel (n / 2) + 1 else 0

/-- The power `2 ^ k` as a fraction, for a signed exponent. -/
def pow2f (k : Int) : Frac :=
  if 0 ≤ k then ⟨2 ^ k.toNat, 1⟩ else ⟨1, 2 ^ (-k).toNat⟩

/-- Round the fraction `A / B` (with `B > 0`) to the nearest integer,
ties to even. -/
def roundTiesEven (A B : Int) : Int :=
  let n := Int.fdiv A B
  let r := A - n * B
  if 2 * r < B then n else if B < 2 * r then n + 1 else if n % 2 = 0 then n else n + 1

/-- Round a positive fraction to the nearest binary64 value (normal range,
round to nearest, ties to even). -/
def rnd64pos (q : Frac) : Frac :=
  let a := q.num
  let b := q.den
  let e0 : Int := (log2fuel 300 a.toNat : Int) - (log2fuel 300 b.toNat : Int)
  let e : Int :=
    if (pow2f (e0 + 1)).le q then e0 + 1 else if (pow2f e0).le q then e0 else e0 - 1
  let k : Int := 52 - e
  let A : Int := if 0 ≤ k then a * 2 ^ k.toNat else a
  let B : Int := if 0 ≤ k then b else b * 2 ^ (-k).toNat
  let m := roundTiesEven A B
  if 0 ≤ k then ⟨m, 2 ^ k.toNat⟩ else ⟨m * 2 ^ (-k).toNat, 1⟩

/-- Round any fraction (positive denominator) to the nearest binary64 value. -/
def rnd64 (q : Frac) : Frac :=
  if q.num = 0 then ⟨0, 1⟩
  else if 0 < q.num then rnd64pos q
  else
    let p := rnd64pos ⟨-q.num, q.den⟩
    ⟨-p.num, p.den⟩

/-- Function `calculateGasCostInTokenOut(gasUsed, tokenOutAddress, tokenOutDecimals)`
from compare.ts, with the price-table lookup `monPriceInToken` passed in as a
fraction (the looked-up value is itself a binary64 constant).  The fixed
`gasPrice` is 1 gwei; `gasCostInWei` is exact BigInt arithmetic, and every
`Number` step rounds to binary64 exactly as the source does. -/
def calculateGasCostInTokenOut (gasUsed : Nat) (monPriceInToken : Frac) (tokenOutDecimals : Nat) : Int :=
  let gasPrice : Nat := 1000000000
  let gasCostInWei : Nat := gasUsed * gasPrice
  let n1 := rnd64 (Frac.ofInt (gasCostInWei : Int))
  let gasCostInMON := rnd64 (n1.div (rnd64 (Frac.ofInt (10 ^ 18))))
  let gasCostInTokenOut := rnd64 (gasCostInMON.mul monPriceInToken)
  (rnd64 (gasCostInTokenOut.mul (rnd64 (Frac.ofInt (10 ^ tokenOutDecimals))))).floor

/-- Modelled from the spec: the exact-arithmetic formula
`floor(gasUsed × assumedGasPrice / 1e18 × nativeToOutputPrice × 10^outputDecimals)`
the specification states for GasAccountant, for comparison against the
source implementation. -/
def specGasCostInTokenOut (gasUsed : Nat) (monPriceInToken : Frac) (tokenOutDecimals : Nat) : Int :=
  ((((Frac.ofInt (gasUsed * 1000000000 : Nat)).div (Frac.ofInt (10 ^ 18))).mul
      monPriceInToken).mul (Frac.ofInt (10 ^ tokenOutDecimals))).floor

/-- Function `calculateNetAmount(amountOut, gasCostInTokenOut)` from compare.ts:
BigInt subtraction, negative results clamp to zero. -/
def calculateNetAmount (amountOut gasCostInTokenOut : Int) : Int :=
  let netAmount := amountOut - gasCostInTokenOut
  if netAmount < 0 then 0 else netAmount

set_option maxRecDepth 40000 in
/-- C6: at the specified example (gasUsed = 150000, nativeToOutputPrice = 2500,
6 output decimals) the implementation, which routes the computation through
binary64 `Number` arithmetic, returns a gas cost of 374999 — one unit below the
specified `floor(gasUsed × 1e9 / 1e18 × price × 10^decimals) = 375000` — and
hence a net amount of 99125001 instead of the specified 99125000. -/
theorem gasCost_float_path_diverges_from_spec_formula :
    calculateGasCostInTokenOut 150000 (Frac.ofInt 2500) 6 = 374999 ∧
      specGasCostInTokenOut 150000 (Frac.ofInt 2500) 6 = 375000 ∧
      calculateNetAmount 99500000 (calculateGasCostInTokenOut 150000 (Frac.ofInt 2500) 6) = 99125001 ∧
      calculateNetAmount 99500000 375000 = 99125000 := by
  decide

/-! ## BalanceInjector (compare.ts: setERC20Balance, findBalanceSlot,
detectProxyImplementation)

The forked node is modelled for a single token contract: its storage maps
abstract storage keys to 256-bit words (`Nat`), the holder has a native
balance, and the process-wide `BALANCE_SLOT_CACHE` holds the confirmed slot
for this token.  `keccak256` is collision-free on the preimage shapes this
code produces, so storage keys are represented symbolically: the hash of
`pad32(key) ++ pad32(slot)`, the hash of the reversed concatenation, and raw
slot indices (which also cover the three fixed proxy implementation-pointer
slots and the ERC-7201 namespace constant, all distinct 256-bit values).

How `balanceOf` reads storage is a property of the (unknown) token contract:
`TokenLayout.ks s` is a token whose balance mapping lives at base slot `s`
with the standard `keccak256(pad32(holder) ++ pad32(s))` location (this also
covers ERC-7201 namespaced tokens, whose base slot is the large namespace
constant), and `TokenLayout.sk s` is a token using the reversed preimage
order.  `writes` counts the `setStorageAt`-family calls made so far. -/

/-- A 160-bit account address. -/
abbrev Addr := Nat

/-- A storage location of the token contract, identified by the preimage
shape that produced it. -/
inductive StorageKey where
  | hashKS (key : Addr) (slot : Nat)
  | hashSK (slot : Nat) (key : Addr)
  | slotIx (slot : Nat)
deriving DecidableEq

/-- How the token contract computes `balanceOf(holder)` from its storage. -/
inductive TokenLayout where
  | ks (s : Nat)
  | sk (s : Nat)
deriving DecidableEq

/-- The forked node, restricted to what `setERC20Balance` touches: the token
contract storage, the holder native balance, the `BALANCE_SLOT_CACHE` entry
for this token, and a counter of storage writes performed. -/
structure NodeState where
  storage : StorageKey → Nat
  native : Nat
  cache : Option Nat
  writes : Nat

/-- A `setStorageAt` call on the token contract. -/
def writeSlot (st : NodeState) (k : StorageKey) (v : Nat) : NodeState :=
  { st with storage := fun k' => if k' = k then v else st.storage k',
            writes := st.writes + 1 }

/-- The `balanceOf(holder)` view call, determined by the token layout. -/
def balanceOf (L : TokenLayout) (holder : Addr) (st : NodeState) : Nat :=
  match L with
  | .ks s => st.storage (.hashKS holder s)
  | .sk s => st.storage (.hashSK s holder)

/-- The list `COMMON_SLOTS_FOR_BALANCE_SET` from consts.ts, in source order. -/
def COMMON_SLOTS_FOR_BALANCE_SET : List Nat :=
  [0, 1, 2, 3, 4, 5, 6, 7, 8, 9, 10,
   11, 12, 13, 14, 15, 16, 17, 18, 19, 20,
   51, 52, 101, 102, 103, 104, 105,
   50, 100, 150, 200, 255]

/-- The ERC-7201 namespace constant `ERC20_NAMESPACE_ID` of Method 4, used as
the base slot of the namespaced balances mapping. -/
def ERC20_NAMESPACE_ID : Nat :=
  0x52c63247e1f47db19d5ce0460030c497f067ca4cebf71ba98eeadabe20bace00

/-- The three implementation-pointer slots probed by
`detectProxyImplementation`. -/
def PROXY_SLOTS : List Nat :=
  [0x360894a13ba1a3210667c828492db98dca3e2076cc3735a920a3ca505d382bbc,
   0x5f3b5dfeb7b28cdbd7faba78963ee202a494e2a2cc8c9978b5e1354f480f6e77,
   0x7050c9e0f4ca769c69bd3a8ef740bc37934f8e2c036e5a723fd8ee048ed3f8c3]

/-- Function `detectProxyImplementation`: the token is treated as a proxy when a known
implementation-pointer slot holds a nonzero word. -/
def detectProxyImplementation (st : NodeState) : Bool :=
  PROXY_SLOTS.any fun s => st.storage (.slotIx s) != 0

/-- Method 1 of `setERC20Balance`: for each candidate slot, read the original
word, write the target amount at `keccak256(pad32(holder) ++ pad32(slot))`,
read back `balanceOf`, succeed and cache the slot when `balance >= amount`,
otherwise restore the original word and continue. -/
def probeSlots (L : TokenLayout) (holder : Addr) (amount : Nat) :
    List Nat → NodeState → Bool × NodeState
  | [], st => (false, st)
  | c :: rest, st =>
    let key := StorageKey.hashKS holder c
    let originalValue := st.storage key
    let st1 := writeSlot st key amount
    if amount ≤ balanceOf L holder st1 then
      (true, { st1 with cache := some c })
    else
      probeSlots L holder amount rest (writeSlot st1 key originalValue)

/-- Method 2: `hardhat_setBalance` sets the holder native balance to
`amount * 10^18`; the token storage is untouched, so the subsequent
`balanceOf` check passes only if the balance was already sufficient. -/
def methodSetNativeBalance (L : TokenLayout) (holder : Addr) (amount : Nat)
    (st : NodeState) : Bool × NodeState :=
  let st1 := { st with native := amount * 10 ^ 18 }
  (amount ≤ balanceOf L holder st1, st1)

/-- Method 3: impersonate the holder and call `deal` on the Foundry cheatcode
address.  On an Anvil fork that address carries no code, so the call leaves
the token storage unchanged and the `balanceOf` verification decides the
outcome. -/
def methodImpersonateDeal (L : TokenLayout) (holder : Addr) (amount : Nat)
    (st : NodeState) : Bool × NodeState :=
  (amount ≤ balanceOf L holder st, st)

/-- Method 4: write the amount at the ERC-7201 namespaced balances location
`keccak256(pad32(holder) ++ pad32(ERC20_NAMESPACE_ID))` and verify; the
original word is not read and a failed attempt is not restored. -/
def methodNamespacedOZ (L : TokenLayout) (holder : Addr) (amount : Nat)
    (st : NodeState) : Bool × NodeState :=
  let key := StorageKey.hashKS holder ERC20_NAMESPACE_ID
  let st1 := writeSlot st key amount
  (amount ≤ balanceOf L holder st1, st1)

/-- The sentinel amount `findBalanceSlot` writes while scanning. -/
def FIND_TEST_AMOUNT : Nat := 123456789123456789123456789

/-- The scanning loop of `findBalanceSlot`: write the sentinel at each
candidate location and demand exact equality from `balanceOf`; on a match the
slot is cached and the location is zeroed (not restored); a miss leaves the
sentinel in place. -/
def findScan (L : TokenLayout) (holder : Addr) :
    List Nat → NodeState → Option Nat × NodeState
  | [], st => (none, st)
  | c :: rest, st =>
    let key := StorageKey.hashKS holder c
    let st1 := writeSlot st key FIND_TEST_AMOUNT
    if balanceOf L holder st1 = FIND_TEST_AMOUNT then
      (some c, writeSlot { st1 with cache := some c } key 0)
    else
      findScan L holder rest st1

/-- Function `findBalanceSlot` from compare.ts: return the cached slot when present,
otherwise scan the common slots with the sentinel amount. -/
def findBalanceSlot (L : TokenLayout) (holder : Addr) (st : NodeState) :
    Option Nat × NodeState :=
  match st.cache with
  | some c => (some c, st)
  | none => findScan L holder COMMON_SLOTS_FOR_BALANCE_SET st

/-- Method 5: locate the balance slot via `findBalanceSlot`, then write the
amount there, verify, and restore the original word when verification
fails. -/
def methodFindSlot (L : TokenLayout) (holder : Addr) (amount : Nat)
    (st : NodeState) : Bool × NodeState :=
  let r := findBalanceSlot L holder st
  match r.1 with
  | none => (false, r.2)
  | some c =>
    let key := StorageKey.hashKS holder c
    let originalValue := r.2.storage key
    let st1 := writeSlot r.2 key amount
    if amount ≤ balanceOf L holder st1 then (true, st1)
    else (false, writeSlot st1 key originalValue)

/-- The inner balance-slot loop of Method 6; no restores. -/
def supplyAdjustInner (L : TokenLayout) (holder : Addr) (amount : Nat) :
    List Nat → NodeState → Bool × NodeState
  | [], st => (false, st)
  | c :: rest, st =>
    let st1 := writeSlot st (.hashKS holder c) amount
    if amount ≤ balanceOf L holder st1 then
      (true, { st1 with cache := some c })
    else
      supplyAdjustInner L holder amount rest st1

/-- The outer total-supply loop of Method 6: write an inflated total supply at
each candidate supply slot, then retry balance slots 0–5; no restores. -/
def supplyAdjustOuter (L : TokenLayout) (holder : Addr) (amount : Nat) :
    List Nat → NodeState → Bool × NodeState
  | [], st => (false, st)
  | sSlot :: rest, st =>
    let st1 := writeSlot st (.slotIx sSlot) (amount * 1000)
    let r := supplyAdjustInner L holder amount [0, 1, 2, 3, 4, 5] st1
    if r.1 then r else supplyAdjustOuter L holder amount rest r.2

/-- Method 6: total-supply co-adjustment over supply slots 2–8. -/
def methodSupplyAdjust (L : TokenLayout) (holder : Addr) (amount : Nat)
    (st : NodeState) : Bool × NodeState :=
  supplyAdjustOuter L holder amount [2, 3, 4, 5, 6, 7, 8] st

/-- Method 7 (proxy tokens only): probe with the reversed preimage order
`keccak256(pad32(slot) ++ pad32(holder))`, restoring the original word on a
failed probe. -/
def probeReversedOrder (L : TokenLayout) (holder : Addr) (amount : Nat) :
    List Nat → NodeState → Bool × NodeState
  | [], st => (false, st)
  | c :: rest, st =>
    let key := StorageKey.hashSK c holder
    let originalValue := st.storage key
    let st1 := writeSlot st key amount
    if amount ≤ balanceOf L holder st1 then
      (true, { st1 with cache := some c })
    else
      probeReversedOrder L holder amount rest (writeSlot st1 key originalValue)

/-- The proxy candidate slots of Method 7. -/
def PROXY_TRY_SLOTS : List Nat := [0, 1, 2, 3, 4, 5, 6, 7, 8, 9, 10, 51, 52, 100, 101, 102]

/-- Function `setERC20Balance(client, tokenAddress, holderAddress, amount)` from
compare.ts: proxy detection on the incoming state, then the seven fallback
strategies in source order, first success winning. -/
def setERC20Balance (L : TokenLayout) (holder : Addr) (amount : Nat)
    (st : NodeState) : Bool × NodeState :=
  let isProxy := detectProxyImplementation st
  let r1 := probeSlots L holder amount COMMON_SLOTS_FOR_BALANCE_SET st
  if r1.1 then r1 else
  let r2 := methodSetNativeBalance L holder amount r1.2
  if r2.1 then r2 else
  let r3 := methodImpersonateDeal L holder amount r2.2
  if r3.1 then r3 else
  let r4 := methodNamespacedOZ L holder amount r3.2
  if r4.1 then r4 else
  let r5 := methodFindSlot L holder amount r4.2
  if r5.1 then r5 else
  let r6 := methodSupplyAdjust L holder amount r5.2
  if r6.1 then r6 else
  if isProxy then
    let r7 := probeReversedOrder L holder amount PROXY_TRY_SLOTS r6.2
    if r7.1 then r7 else (false, r7.2)
  else
    (false, r6.2)

/-- The node state of a fresh fork of a chain on which the holder balance and
every storage word this code can touch are zero. -/
def pristineState : NodeState := ⟨fun _ => 0, 0, none, 0⟩

/-! ## SwapExecutor (compare.ts: simulateTransaction, approveERC20, and the
retry wrapper of runComparison)

`simulateTransaction` is modelled for an ERC20 input token.  The parts of the
node beyond the input-token contract are parameters: the output-token balance
of the test account before (`preOut`) and after (`postOut`) the swap, whether
the target contract has deployed code, and the outcome of the submission
(`executeTransactionWithRetry` either produces a receipt or throws).  The
entire body of `simulateTransaction` sits inside a `try` whose function-level
`catch` converts any thrown error — including the timeout error rethrown by
the inner submission catch — into a status-"error" result, so the function
returns a `SimulationResult` on every path and never throws to its caller. -/

/-- The constant `MAX_UINT256`, the allowance value `approveERC20` actually writes. -/
def MAX_UINT256 : Nat := 2 ^ 256 - 1

/-- A `SimulationResult` row. -/
structure SimResult where
  status : String
  amountOut : Int
  gasUsed : Option Nat
  error : Option String
deriving DecidableEq, Repr

/-- What the executor did on the way: whether `approveERC20` ran, the amount
argument it received, the allowance it wrote, and whether the swap transaction
was submitted. -/
structure SimTrace where
  approveCalled : Bool
  approveArgAmount : Nat
  allowanceWritten : Nat
  submitted : Bool
deriving DecidableEq, Repr

/-- Outcome of `executeTransactionWithRetry`: a mined receipt or a thrown
error. -/
inductive TxOutcome where
  | throws (msg : String)
  | receipt (success : Bool) (gasUsed : Nat)
deriving DecidableEq, Repr

/-- Result, trace and final node state of one `simulateTransaction` call. -/
structure SimOutcome where
  res : SimResult
  trace : SimTrace
  node : NodeState

/-- The ERC20 branch of `simulateTransaction`: inject a 10× buffered balance,
bail out with the fixed error message when injection fails or the verified
balance is short, approve the swap target (`approveERC20` writes the infinite
`MAX_UINT256` allowance, ignoring its amount argument), snapshot the
output-token balance, require deployed code at the target, submit, and map the
receipt to a result.  A thrown submission error — timeout or not — ends up as
a status-"error" result because of the function-level catch. -/
def simulateTransactionERC20 (L : TokenLayout) (holder : Addr) (amountIn : Nat)
    (st : NodeState) (preOut postOut : Int) (targetHasCode : Bool)
    (txo : TxOutcome) : SimOutcome :=
  let bufferMultiplier := 10
  let bufferedAmount := amountIn * bufferMultiplier
  let inj := setERC20Balance L holder bufferedAmount st
  let actualBalance := balanceOf L holder inj.2
  if !inj.1 || actualBalance < amountIn then
    ⟨⟨"error", 0, none, some "Failed to set token balance for simulation"⟩,
     ⟨false, 0, 0, false⟩, inj.2⟩
  else
    let tr : SimTrace := ⟨true, bufferedAmount, MAX_UINT256, false⟩
    let initialBalance := preOut
    if !targetHasCode then
      ⟨⟨"error", 0, none, some "Target contract does not exist"⟩, tr, inj.2⟩
    else
      let tr := { tr with submitted := true }
      match txo with
      | .throws msg => ⟨⟨"error", 0, none, some msg⟩, tr, inj.2⟩
      | .receipt true gasUsed =>
        ⟨⟨"success", postOut - initialBalance, some gasUsed, none⟩, tr, inj.2⟩
      | .receipt false gasUsed =>
        ⟨⟨"reverted", 0, some gasUsed, some "Transaction reverted"⟩, tr, inj.2⟩

/-- Outcome of the `retryWithBackoff` wrapper around a simulation in
`runComparison`: the recorded result, the number of times the closure invoked
`simulateTransaction`, and how many times the catch inside the closure reset the fork
to the target block between attempts. -/
structure SwapRetryRun where
  result : Except (Option String) SimResult
  calls : Nat
  forkResets : Nat
deriving Repr

/-- The retry wrapper of runComparison (maxAttempts 3, initialDelay 5000,
maxDelay 30000) around a simulation closure: on a thrown error whose message
contains "timeout" or "timed out" the closure resets the fork to the original
target block and rethrows; `retryWithBackoff` then consults
`defaultShouldRetry` and either retries or gives up.  The closure body is
abstracted as `simFn`, a function from the attempt number to a normal return
or a thrown message. -/
def swapRetryLoop (simFn : Nat → Except String SimResult) :
    Nat → Nat → Nat → Nat → Nat → Option String → SwapRetryRun
  | 0, _, _, calls, resets, lastErr => ⟨.error lastErr, calls, resets⟩
  | fuel + 1, attempt, delay, calls, resets, _ =>
    match simFn attempt with
    | .ok r => ⟨.ok r, calls + 1, resets⟩
    | .error msg =>
      let resets :=
        if containsSub msg "timeout" || containsSub msg "timed out" then resets + 1 else resets
      if attempt == 3 || !defaultShouldRetry msg "" then ⟨.error (some msg), calls + 1, resets⟩
      else swapRetryLoop simFn fuel (attempt + 1) (min (delay * 2) 30000) (calls + 1) resets (some msg)

/-- The full wrapper: three attempts starting at attempt 1 with a 5000 ms
initial delay. -/
def runSwapSimulationWithRetry (simFn : Nat → Except String SimResult) : SwapRetryRun :=
  swapRetryLoop simFn 3 1 5000 0 0 none

/-! ## Lemmas about the injection strategies -/

/-- Reading `balanceOf` touches only contract storage, not the slot cache. -/
lemma balanceOf_set_cache (L : TokenLayout) (h : Addr) (st : NodeState) (c : Option Nat) :
    balanceOf L h { st with cache := c } = balanceOf L h st := by
  cases L <;> rfl

/-- Reading `balanceOf` touches only contract storage, not the native balance. -/
lemma balanceOf_set_native (L : TokenLayout) (h : Addr) (st : NodeState) (n : Nat) :
    balanceOf L h { st with native := n } = balanceOf L h st := by
  cases L <;> rfl

/-- Writing storage on a state with a replaced cache is replacing the cache on
the written state. -/
lemma writeSlot_set_cache (st : NodeState) (c : Option Nat) (k : StorageKey) (v : Nat) :
    writeSlot { st with cache := c } k v = { writeSlot st k v with cache := c } := rfl

/-- Every success of the direct probe loop has just verified
`balance >= amount`. -/
lemma probeSlots_success (L : TokenLayout) (h : Addr) (a : Nat) :
    ∀ (slots : List Nat) (st : NodeState), (probeSlots L h a slots st).1 = true →
      a ≤ balanceOf L h (probeSlots L h a slots st).2 := by
  intro slots
  induction slots with
  | nil => intro st hp; simp [probeSlots] at hp
  | cons c rest ih =>
    intro st hp
    by_cases hc : a ≤ balanceOf L h (writeSlot st (StorageKey.hashKS h c) a)
    · simp only [probeSlots, if_pos hc]
      simpa [balanceOf_set_cache] using hc
    · simp only [probeSlots, if_neg hc] at hp ⊢
      exact ih _ hp

/-- Every success of the reversed-order probe loop has just verified
`balance >= amount`. -/
lemma probeReversedOrder_success (L : TokenLayout) (h : Addr) (a : Nat) :
    ∀ (slots : List Nat) (st : NodeState), (probeReversedOrder L h a slots st).1 = true →
      a ≤ balanceOf L h (probeReversedOrder L h a slots st).2 := by
  intro slots
  induction slots with
  | nil => intro st hp; simp [probeReversedOrder] at hp
  | cons c rest ih =>
    intro st hp
    by_cases hc : a ≤ balanceOf L h (writeSlot st (StorageKey.hashSK c h) a)
    · simp only [probeReversedOrder, if_pos hc]
      simpa [balanceOf_set_cache] using hc
    · simp only [probeReversedOrder, if_neg hc] at hp ⊢
      exact ih _ hp

/-- Every success of the inner loop of Method 6 has just verified
`balance >= amount`. -/
lemma supplyAdjustInner_success (L : TokenLayout) (h : Addr) (a : Nat) :
    ∀ (slots : List Nat) (st : NodeState), (supplyAdjustInner L h a slots st).1 = true →
      a ≤ balanceOf L h (supplyAdjustInner L h a slots st).2 := by
  intro slots
  induction slots with
  | nil => intro st hp; simp [supplyAdjustInner] at hp
  | cons c rest ih =>
    intro st hp
    by_cases hc : a ≤ balanceOf L h (writeSlot st (StorageKey.hashKS h c) a)
    · simp only [supplyAdjustInner, if_pos hc]
      simpa [balanceOf_set_cache] using hc
    · simp only [supplyAdjustInner, if_neg hc] at hp ⊢
      exact ih _ hp

/-- Every success of the outer loop of Method 6 has just verified
`balance >= amount`. -/
lemma supplyAdjustOuter_success (L : TokenLayout) (h : Addr) (a : Nat) :
    ∀ (slots : List Nat) (st : NodeState), (supplyAdjustOuter L h a slots st).1 = true →
      a ≤ balanceOf L h (supplyAdjustOuter L h a slots st).2 := by
  intro slots
  induction slots with
  | nil => intro st hp; simp [supplyAdjustOuter] at hp
  | cons c rest ih =>
    intro st hp
    by_cases hc :
        (supplyAdjustInner L h a [0, 1, 2, 3, 4, 5] (writeSlot st (.slotIx c) (a * 1000))).1 = true
    · simp only [supplyAdjustOuter, if_pos hc]
      exact supplyAdjustInner_success L h a _ _ hc
    · simp only [supplyAdjustOuter, if_neg hc] at hp ⊢
      exact ih _ hp

/-- Every success of Method 5 has just verified `balance >= amount`. -/
lemma methodFindSlot_success (L : TokenLayout) (h : Addr) (a : Nat) (st : NodeState)
    (hp : (methodFindSlot L h a st).1 = true) :
    a ≤ balanceOf L h (methodFindSlot L h a st).2 := by
  rcases hfind : (findBalanceSlot L h st).1 with _ | c
  · simp [methodFindSlot, hfind] at hp
  · by_cases hc :
        a ≤ balanceOf L h (writeSlot (findBalanceSlot L h st).2 (StorageKey.hashKS h c) a)
    · simpa [methodFindSlot, hfind, if_pos hc] using hc
    · simp [methodFindSlot, hfind, if_neg hc] at hp

/-- Every success of Method 4 has just verified `balance >= amount`. -/
lemma methodNamespacedOZ_success (L : TokenLayout) (h : Addr) (a : Nat) (st : NodeState)
    (hp : (methodNamespacedOZ L h a st).1 = true) :
    a ≤ balanceOf L h (methodNamespacedOZ L h a st).2 := by
  simpa [methodNamespacedOZ] using hp

/-- Every success of Method 2 has just verified `balance >= amount`. -/
lemma methodSetNativeBalance_success (L : TokenLayout) (h : Addr) (a : Nat) (st : NodeState)
    (hp : (methodSetNativeBalance L h a st).1 = true) :
    a ≤ balanceOf L h (methodSetNativeBalance L h a st).2 := by
  simpa [methodSetNativeBalance] using hp

/-- Every success of Method 3 has just verified `balance >= amount`. -/
lemma methodImpersonateDeal_success (L : TokenLayout) (h : Addr) (a : Nat) (st : NodeState)
    (hp : (methodImpersonateDeal L h a st).1 = true) :
    a ≤ balanceOf L h (methodImpersonateDeal L h a st).2 := by
  simpa [methodImpersonateDeal] using hp

/-- Whenever `setERC20Balance` reports success, the verified balance meets the
requested amount. -/
lemma setERC20Balance_success_bound (L : TokenLayout) (h : Addr) (a : Nat) (st : NodeState)
    (hp : (setERC20Balance L h a st).1 = true) :
    a ≤ balanceOf L h (setERC20Balance L h a st).2 := by
  by_cases h1 : (probeSlots L h a COMMON_SLOTS_FOR_BALANCE_SET st).1 = true
  · simpa [setERC20Balance, h1] using probeSlots_success L h a _ st h1
  · by_cases h2 : (methodSetNativeBalance L h a
        (probeSlots L h a COMMON_SLOTS_FOR_BALANCE_SET st).2).1 = true
    · simpa [setERC20Balance, h1, h2] using methodSetNativeBalance_success L h a _ h2
    · by_cases h3 : (methodImpersonateDeal L h a (methodSetNativeBalance L h a
          (probeSlots L h a COMMON_SLOTS_FOR_BALANCE_SET st).2).2).1 = true
      · simpa [setERC20Balance, h1, h2, h3] using methodImpersonateDeal_success L h a _ h3
      · by_cases h4 : (methodNamespacedOZ L h a (methodImpersonateDeal L h a
            (methodSetNativeBalance L h a
              (probeSlots L h a COMMON_SLOTS_FOR_BALANCE_SET st).2).2).2).1 = true
        · simpa [setERC20Balance, h1, h2, h3, h4] using methodNamespacedOZ_success L h a _ h4
        · by_cases h5 : (methodFindSlot L h a (methodNamespacedOZ L h a
              (methodImpersonateDeal L h a (methodSetNativeBalance L h a
                (probeSlots L h a COMMON_SLOTS_FOR_BALANCE_SET st).2).2).2).2).1 = true
          · simpa [setERC20Balance, h1, h2, h3, h4, h5] using methodFindSlot_success L h a _ h5
          · by_cases h6 : (methodSupplyAdjust L h a (methodFindSlot L h a
                (methodNamespacedOZ L h a (methodImpersonateDeal L h a
                  (methodSetNativeBalance L h a
                    (probeSlots L h a COMMON_SLOTS_FOR_BALANCE_SET st).2).2).2).2).2).1 = true
            · simpa [setERC20Balance, h1, h2, h3, h4, h5, h6] using
                supplyAdjustOuter_success L h a _ _ h6
            · by_cases hproxy : detectProxyImplementation st = true
              · by_cases h7 : (probeReversedOrder L h a PROXY_TRY_SLOTS
                    (methodSupplyAdjust L h a (methodFindSlot L h a
                      (methodNamespacedOZ L h a (methodImpersonateDeal L h a
                        (methodSetNativeBalance L h a
                          (probeSlots L h a COMMON_SLOTS_FOR_BALANCE_SET st).2).2).2).2).2).2).1 = true
                · simpa [setERC20Balance, h1, h2, h3, h4, h5, h6, hproxy, h7] using
                    probeReversedOrder_success L h a _ _ h7
                · simp [setERC20Balance, h1, h2, h3, h4, h5, h6, hproxy, h7] at hp
              · simp [setERC20Balance, h1, h2, h3, h4, h5, h6, hproxy] at hp

/-- A failed probe of one candidate slot in the direct probe loop restores the
storage it wrote, word for word. -/
lemma probeSlots_single_fail_restores (L : TokenLayout) (h : Addr) (a : Nat) (c : Nat)
    (st : NodeState) (hp : (probeSlots L h a [c] st).1 = false) :
    ∀ k, (probeSlots L h a [c] st).2.storage k = st.storage k := by
  by_cases hc : a ≤ balanceOf L h (writeSlot st (StorageKey.hashKS h c) a)
  · simp [probeSlots, hc] at hp
  · intro k
    simp only [probeSlots, if_neg hc]
    simp only [writeSlot]
    by_cases hk : k = StorageKey.hashKS h c <;> simp [hk]

/-- A failed probe of one candidate slot in the reversed-order proxy loop
restores the storage it wrote, word for word. -/
lemma probeReversedOrder_single_fail_restores (L : TokenLayout) (h : Addr) (a : Nat) (c : Nat)
    (st : NodeState) (hp : (probeReversedOrder L h a [c] st).1 = false) :
    ∀ k, (probeReversedOrder L h a [c] st).2.storage k = st.storage k := by
  by_cases hc : a ≤ balanceOf L h (writeSlot st (StorageKey.hashSK c h) a)
  · simp [probeReversedOrder, hc] at hp
  · intro k
    simp only [probeReversedOrder, if_neg hc]
    simp only [writeSlot]
    by_cases hk : k = StorageKey.hashSK c h <;> simp [hk]

/-- When Method 5 takes its slot from the cache and its verification fails, it
restores the one word it wrote. -/
lemma methodFindSlot_cached_fail_restores (L : TokenLayout) (h : Addr) (a : Nat) (c : Nat)
    (st : NodeState) (hcache : st.cache = some c)
    (hp : (methodFindSlot L h a st).1 = false) :
    ∀ k, (methodFindSlot L h a st).2.storage k = st.storage k := by
  have hfind : findBalanceSlot L h st = (some c, st) := by
    simp [findBalanceSlot, hcache]
  by_cases hc : a ≤ balanceOf L h (writeSlot st (StorageKey.hashKS h c) a)
  · simp [methodFindSlot, hfind, hc] at hp
  · intro k
    simp only [methodFindSlot, hfind, if_neg hc]
    simp only [writeSlot]
    by_cases hk : k = StorageKey.hashKS h c <;> simp [hk]

/-- The value of `balanceOf` is a function of contract storage alone. -/
lemma balanceOf_congr (L : TokenLayout) (h : Addr) (st₁ st₂ : NodeState)
    (hst : st₁.storage = st₂.storage) : balanceOf L h st₁ = balanceOf L h st₂ := by
  cases L <;> simp [balanceOf, hst]

/-- Storage written on states that agree on storage agrees again. -/
lemma writeSlot_storage_congr (st₁ st₂ : NodeState) (k : StorageKey) (v : Nat)
    (hst : st₁.storage = st₂.storage) :
    (writeSlot st₁ k v).storage = (writeSlot st₂ k v).storage := by
  simp [writeSlot, hst]

/-- The direct probe loop reads nothing but contract storage — in particular
it never consults the slot cache: on two states with the same storage it
reports the same success flag. -/
lemma probeSlots_depends_only_on_storage (L : TokenLayout) (h : Addr) (a : Nat) :
    ∀ (slots : List Nat) (st₁ st₂ : NodeState), st₁.storage = st₂.storage →
      (probeSlots L h a slots st₁).1 = (probeSlots L h a slots st₂).1 := by
  intro slots
  induction slots with
  | nil => intro st₁ st₂ _; rfl
  | cons s rest ih =>
    intro st₁ st₂ hst
    have hw : (writeSlot st₁ (StorageKey.hashKS h s) a).storage
        = (writeSlot st₂ (StorageKey.hashKS h s) a).storage :=
      writeSlot_storage_congr st₁ st₂ _ a hst
    have hcond : balanceOf L h (writeSlot st₁ (StorageKey.hashKS h s) a)
        = balanceOf L h (writeSlot st₂ (StorageKey.hashKS h s) a) :=
      balanceOf_congr L h _ _ hw
    by_cases hc : a ≤ balanceOf L h (writeSlot st₂ (StorageKey.hashKS h s) a)
    · have hc₁ : a ≤ balanceOf L h (writeSlot st₁ (StorageKey.hashKS h s) a) := by
        rw [hcond]; exact hc
      simp [probeSlots, hc, hc₁]
    · have hc₁ : ¬ a ≤ balanceOf L h (writeSlot st₁ (StorageKey.hashKS h s) a) := by
        rw [hcond]; exact hc
      simp only [probeSlots, if_neg hc, if_neg hc₁]
      refine ih _ _ ?_
      have horig : st₁.storage (StorageKey.hashKS h s) = st₂.storage (StorageKey.hashKS h s) := by
        rw [hst]
      rw [horig]
      exact writeSlot_storage_congr _ _ _ _ hw

/-- For a token with a standard balances mapping at base slot `s`, zero prior
balance and a positive amount, the direct probe loop succeeds exactly when it
reaches `s` in the candidate list, caches `s`, and leaves the balance at the
requested amount. -/
lemma probeSlots_finds_layout_slot (s : Nat) (h : Addr) (a : Nat) (hpos : 0 < a) :
    ∀ (slots : List Nat) (st : NodeState), s ∈ slots →
      st.storage (StorageKey.hashKS h s) = 0 →
      (probeSlots (.ks s) h a slots st).1 = true ∧
      (probeSlots (.ks s) h a slots st).2.cache = some s ∧
      balanceOf (.ks s) h (probeSlots (.ks s) h a slots st).2 = a := by
  intro slots
  induction slots with
  | nil => intro st hmem _; simp at hmem
  | cons c rest ih =>
    intro st hmem h0
    by_cases hcs : c = s
    · subst hcs
      have hcond : a ≤ balanceOf (.ks c) h (writeSlot st (StorageKey.hashKS h c) a) := by
        simp [balanceOf, writeSlot]
      simp [probeSlots, hcond, balanceOf, writeSlot]
    · have hsc : s ≠ c := fun he => hcs he.symm
      have hkey : StorageKey.hashKS h s ≠ StorageKey.hashKS h c := by
        simp [StorageKey.hashKS.injEq, hsc]
      have hbal : balanceOf (.ks s) h (writeSlot st (StorageKey.hashKS h c) a) = 0 := by
        simp [balanceOf, writeSlot, hkey, h0]
      have hcond : ¬ a ≤ balanceOf (.ks s) h (writeSlot st (StorageKey.hashKS h c) a) := by
        rw [hbal]; omega
      simp only [probeSlots, if_neg hcond]
      refine ih _ ((List.mem_cons.mp hmem).resolve_left hsc) ?_
      simp [writeSlot, hkey, h0]

/-! ## Claim theorems for the BalanceInjector -/

/-- C1 counterexample: for a token whose balances mapping lives at the
uncommon base slot 30, every strategy fails and `setERC20Balance` returns
false, yet the word at the ERC-7201 namespaced location written by Method 4
still holds the requested amount instead of its original zero — the failed
call does not restore storage. -/
theorem setERC20Balance_failure_leaves_residue :
    (setERC20Balance (.ks 30) 77 5 pristineState).1 = false ∧
      (setERC20Balance (.ks 30) 77 5 pristineState).2.storage
        (StorageKey.hashKS 77 ERC20_NAMESPACE_ID) = 5 ∧
      pristineState.storage (StorageKey.hashKS 77 ERC20_NAMESPACE_ID) = 0 := by
  decide

/-- C1 (amended): whenever `setERC20Balance` returns true the verified
balance meets the requested amount; and of the fallback strategies, exactly
the per-probe writes of the direct probe (strategy 1), the cached-slot write
of strategy 5 and the reversed-order probe (strategy 7) are restored word for
word when their verification fails — the namespaced write of strategy 4, the
scan of `findBalanceSlot` and the total-supply co-adjustment of strategy 6
leave their writes behind, so a failed call does not restore all storage. -/
theorem setERC20Balance_success_or_partial_restore :
    (∀ (L : TokenLayout) (h : Addr) (a : Nat) (st : NodeState),
        (setERC20Balance L h a st).1 = true →
          a ≤ balanceOf L h (setERC20Balance L h a st).2) ∧
    (∀ (L : TokenLayout) (h : Addr) (a c : Nat) (st : NodeState),
        (probeSlots L h a [c] st).1 = false →
          ∀ k, (probeSlots L h a [c] st).2.storage k = st.storage k) ∧
    (∀ (L : TokenLayout) (h : Addr) (a c : Nat) (st : NodeState),
        (probeReversedOrder L h a [c] st).1 = false →
          ∀ k, (probeReversedOrder L h a [c] st).2.storage k = st.storage k) ∧
    (∀ (L : TokenLayout) (h : Addr) (a c : Nat) (st : NodeState), st.cache = some c →
        (methodFindSlot L h a st).1 = false →
          ∀ k, (methodFindSlot L h a st).2.storage k = st.storage k) :=
  ⟨setERC20Balance_success_bound, probeSlots_single_fail_restores,
   probeReversedOrder_single_fail_restores, methodFindSlot_cached_fail_restores⟩

/-- Witness for C1 (amended) at concrete inputs: a successful injection into a
slot-3 token, and failed single probes that restore the probed word. -/
theorem setERC20Balance_success_or_partial_restore_witness :
    5 ≤ balanceOf (.ks 3) 77 (setERC20Balance (.ks 3) 77 5 pristineState).2 ∧
      (probeSlots (.ks 9) 77 5 [0] pristineState).2.storage (StorageKey.hashKS 77 0)
        = pristineState.storage (StorageKey.hashKS 77 0) ∧
      (probeReversedOrder (.ks 9) 77 5 [0] pristineState).2.storage (StorageKey.hashSK 0 77)
        = pristineState.storage (StorageKey.hashSK 0 77) ∧
      (methodFindSlot (.ks 9) 77 5 { pristineState with cache := some 4 }).2.storage
          (StorageKey.hashKS 77 4)
        = ({ pristineState with cache := some 4 } : NodeState).storage (StorageKey.hashKS 77 4) :=
  ⟨setERC20Balance_success_or_partial_restore.1 (.ks 3) 77 5 pristineState (by decide),
   setERC20Balance_success_or_partial_restore.2.1 (.ks 9) 77 5 0 pristineState (by decide) _,
   setERC20Balance_success_or_partial_restore.2.2.1 (.ks 9) 77 5 0 pristineState (by decide) _,
   setERC20Balance_success_or_partial_restore.2.2.2 (.ks 9) 77 5 4
     { pristineState with cache := some 4 } rfl (by decide) _⟩

/-- C2 counterexample: after a first successful injection for a slot-1 token
has populated the cache with slot 1, a second injection for the same token
performs three further storage writes (probe of slot 0, its restore, then the
write to slot 1), not exactly one. -/
theorem setERC20Balance_repeat_call_writes_three_times :
    (setERC20Balance (.ks 1) 77 5 pristineState).1 = true ∧
      (setERC20Balance (.ks 1) 77 5 pristineState).2.cache = some 1 ∧
      (setERC20Balance (.ks 1) 77 7 (setERC20Balance (.ks 1) 77 5 pristineState).2).1 = true ∧
      (setERC20Balance (.ks 1) 77 7 (setERC20Balance (.ks 1) 77 5 pristineState).2).2.writes
          - (setERC20Balance (.ks 1) 77 5 pristineState).2.writes = 3 ∧
      ¬ ((setERC20Balance (.ks 1) 77 7 (setERC20Balance (.ks 1) 77 5 pristineState).2).2.writes
          - (setERC20Balance (.ks 1) 77 5 pristineState).2.writes = 1) := by
  decide

/-- C2 (amended): `setERC20Balance` does not check the slot cache before the
direct probe — the probe loop reads nothing but contract storage, and the
cache is consulted only inside `findBalanceSlot` (strategy 5) — so a repeat
call for a token with a confirmed slot re-runs the probe loop; for a slot-1
token it performs three storage writes, not one. -/
theorem setERC20Balance_cache_not_checked_first :
    (∀ (L : TokenLayout) (h : Addr) (a : Nat) (slots : List Nat) (st₁ st₂ : NodeState),
        st₁.storage = st₂.storage →
          (probeSlots L h a slots st₁).1 = (probeSlots L h a slots st₂).1) ∧
    ((setERC20Balance (.ks 1) 77 5 pristineState).1 = true ∧
      (setERC20Balance (.ks 1) 77 5 pristineState).2.cache = some 1 ∧
      (setERC20Balance (.ks 1) 77 7 (setERC20Balance (.ks 1) 77 5 pristineState).2).2.writes
          = (setERC20Balance (.ks 1) 77 5 pristineState).2.writes + 3) :=
  ⟨fun L h a slots st₁ st₂ hst => probeSlots_depends_only_on_storage L h a slots st₁ st₂ hst,
   by decide⟩

/-- Witness for C2 (amended): the probe loop is insensitive to the cache on a
concrete pair of states differing only in their cache entry. -/
theorem setERC20Balance_cache_not_checked_first_witness :
    (probeSlots (.ks 1) 77 5 COMMON_SLOTS_FOR_BALANCE_SET
        { pristineState with cache := some 17 }).1
      = (probeSlots (.ks 1) 77 5 COMMON_SLOTS_FOR_BALANCE_SET pristineState).1 :=
  setERC20Balance_cache_not_checked_first.1 (.ks 1) 77 5 COMMON_SLOTS_FOR_BALANCE_SET
    { pristineState with cache := some 17 } pristineState rfl

/-- Modelled from the spec: the candidate slot list the claim asserts —
0–20, 51, 52, 100–105, 150, 200, 255 — for comparison with
`COMMON_SLOTS_FOR_BALANCE_SET`. -/
def specClaimedCandidateSlots : List Nat :=
  [0, 1, 2, 3, 4, 5, 6, 7, 8, 9, 10,
   11, 12, 13, 14, 15, 16, 17, 18, 19, 20,
   51, 52, 100, 101, 102, 103, 104, 105,
   150, 200, 255]

/-- C4 counterexample: the fixed candidate list of the source also contains
slot 50 (and interleaves 50 and 100 after 101–105), so it is not exactly the
claimed list 0–20, 51, 52, 100–105, 150, 200, 255. -/
theorem candidate_slot_list_differs_from_claim :
    COMMON_SLOTS_FOR_BALANCE_SET ≠ specClaimedCandidateSlots ∧
      50 ∈ COMMON_SLOTS_FOR_BALANCE_SET ∧ 50 ∉ specClaimedCandidateSlots := by
  decide

/-- C4 (amended): the direct probe strategy iterates over the fixed candidate
list 0–20, 51, 52, 101–105, 50, 100, 150, 200, 255 in that order; for each
candidate it writes the amount at `keccak256(pad32(holder) ++ pad32(slot))`
and reads back `balanceOf`, and on a match it caches the slot for the token
and succeeds: for every candidate slot `s` in the list, a fresh token with its
balances mapping at base slot `s` is injected successfully, the cache records
`s`, and the balance ends at the requested amount. -/
theorem setERC20Balance_probes_each_candidate_slot (s : Nat) (h : Addr) (a : Nat)
    (hs : s ∈ COMMON_SLOTS_FOR_BALANCE_SET) (hpos : 0 < a) :
    COMMON_SLOTS_FOR_BALANCE_SET =
        [0, 1, 2, 3, 4, 5, 6, 7, 8, 9, 10, 11, 12, 13, 14, 15, 16, 17, 18, 19, 20,
         51, 52, 101, 102, 103, 104, 105, 50, 100, 150, 200, 255] ∧
      (setERC20Balance (.ks s) h a pristineState).1 = true ∧
      (setERC20Balance (.ks s) h a pristineState).2.cache = some s ∧
      balanceOf (.ks s) h (setERC20Balance (.ks s) h a pristineState).2 = a := by
  have hp := probeSlots_finds_layout_slot s h a hpos COMMON_SLOTS_FOR_BALANCE_SET
    pristineState hs rfl
  refine ⟨rfl, ?_, ?_, ?_⟩ <;> simp [setERC20Balance, hp.1, hp.2.1, hp.2.2]

/-- Witness for C4 (amended) at candidate slot 51 with amount 9. -/
theorem setERC20Balance_probes_each_candidate_slot_witness :
    COMMON_SLOTS_FOR_BALANCE_SET =
        [0, 1, 2, 3, 4, 5, 6, 7, 8, 9, 10, 11, 12, 13, 14, 15, 16, 17, 18, 19, 20,
         51, 52, 101, 102, 103, 104, 105, 50, 100, 150, 200, 255] ∧
      (setERC20Balance (.ks 51) 77 9 pristineState).1 = true ∧
      (setERC20Balance (.ks 51) 77 9 pristineState).2.cache = some 51 ∧
      balanceOf (.ks 51) 77 (setERC20Balance (.ks 51) 77 9 pristineState).2 = 9 :=
  setERC20Balance_probes_each_candidate_slot 51 77 9 (by decide) (by decide)

/-! ## Claim theorems for the SwapExecutor -/

/-- C8: when every injection strategy has failed — `setERC20Balance` returned
false rather than throwing — `simulateTransaction` reports a status-"error"
result with exactly the message "Failed to set token balance for simulation",
and neither the approval nor the swap transaction is submitted. -/
theorem injection_exhausted_reports_error (L : TokenLayout) (h : Addr) (amountIn : Nat)
    (st : NodeState) (preOut postOut : Int) (thc : Bool) (txo : TxOutcome)
    (hinj : (setERC20Balance L h (amountIn * 10) st).1 = false) :
    (simulateTransactionERC20 L h amountIn st preOut postOut thc txo).res =
        ⟨"error", 0, none, some "Failed to set token balance for simulation"⟩ ∧
      (simulateTransactionERC20 L h amountIn st preOut postOut thc txo).trace.approveCalled
        = false ∧
      (simulateTransactionERC20 L h amountIn st preOut postOut thc txo).trace.submitted
        = false := by
  refine ⟨?_, ?_, ?_⟩ <;> simp [simulateTransactionERC20, hinj]

/-- Witness for C8: a slot-30 token defeats all seven strategies. -/
theorem injection_exhausted_reports_error_witness :
    (simulateTransactionERC20 (.ks 30) 77 5 pristineState 0 0 true (.receipt true 21000)).res =
        ⟨"error", 0, none, some "Failed to set token balance for simulation"⟩ ∧
      (simulateTransactionERC20 (.ks 30) 77 5 pristineState 0 0 true
        (.receipt true 21000)).trace.approveCalled = false ∧
      (simulateTransactionERC20 (.ks 30) 77 5 pristineState 0 0 true
        (.receipt true 21000)).trace.submitted = false :=
  injection_exhausted_reports_error (.ks 30) 77 5 pristineState 0 0 true
    (.receipt true 21000) (by decide)

/-- C7: a simulation that reports status "success" reports as `amountOut` the
difference between the post-transaction and pre-transaction output-token
balances of the test account; and the net amount is
`max(0, amountOut - gasCost)` as computed by `calculateNetAmount`. -/
theorem success_amountOut_is_balance_delta (L : TokenLayout) (h : Addr) (amountIn : Nat)
    (st : NodeState) (preOut postOut : Int) (thc : Bool) (txo : TxOutcome)
    (hs : (simulateTransactionERC20 L h amountIn st preOut postOut thc txo).res.status
      = "success") :
    (simulateTransactionERC20 L h amountIn st preOut postOut thc txo).res.amountOut
        = postOut - preOut ∧
      ∀ (a g : Int), calculateNetAmount a g = max 0 (a - g) := by
  constructor
  · by_cases hc1 : ((!(setERC20Balance L h (amountIn * 10) st).1
        || decide (balanceOf L h (setERC20Balance L h (amountIn * 10) st).2 < amountIn))) = true
    · simp [simulateTransactionERC20, hc1] at hs
    · by_cases hc2 : (!thc) = true
      · simp [simulateTransactionERC20, hc1, hc2] at hs
      · cases txo with
        | throws msg => simp [simulateTransactionERC20, hc1, hc2] at hs
        | receipt success gasUsed =>
          cases success
          · simp [simulateTransactionERC20, hc1, hc2] at hs
          · simp [simulateTransactionERC20, hc1, hc2]
  · intro a g
    simp only [calculateNetAmount]
    split
    · next hlt => rw [max_eq_left (by omega)]
    · next hge => rw [max_eq_right (by omega)]

/-- Witness for C7: a successful swap with balances 100 before and 350
after reports amountOut 250. -/
theorem success_amountOut_is_balance_delta_witness :
    (simulateTransactionERC20 (.ks 0) 77 5 pristineState 100 350 true
        (.receipt true 21000)).res.amountOut = 350 - 100 ∧
      ∀ (a g : Int), calculateNetAmount a g = max 0 (a - g) :=
  success_amountOut_is_balance_delta (.ks 0) 77 5 pristineState 100 350 true
    (.receipt true 21000) (by decide)

/-- C5 counterexample: on a successful injection the approval transaction
writes the infinite `MAX_UINT256` allowance, not the buffered amount
`10 × amountIn` = 50 that was passed as the amount argument. -/
theorem approve_writes_max_allowance_not_buffered :
    (simulateTransactionERC20 (.ks 0) 77 5 pristineState 0 0 true
        (.receipt true 21000)).trace.approveCalled = true ∧
      (simulateTransactionERC20 (.ks 0) 77 5 pristineState 0 0 true
        (.receipt true 21000)).trace.approveArgAmount = 5 * 10 ∧
      (simulateTransactionERC20 (.ks 0) 77 5 pristineState 0 0 true
        (.receipt true 21000)).trace.allowanceWritten = MAX_UINT256 ∧
      MAX_UINT256 ≠ 5 * 10 := by
  decide

/-- C5 (amended): for an ERC20 input whose injection succeeded, the test
account is funded with the buffered amount `10 × amountIn` and `approveERC20`
is then invoked with that buffered amount as its argument — but the approval
it performs is for `MAX_UINT256` (infinite approval), not for the buffered
amount. -/
theorem funded_10x_but_approved_max (L : TokenLayout) (h : Addr) (amountIn : Nat)
    (st : NodeState) (preOut postOut : Int) (thc : Bool) (txo : TxOutcome)
    (hinj : (setERC20Balance L h (amountIn * 10) st).1 = true)
    (hbal : amountIn ≤ balanceOf L h (setERC20Balance L h (amountIn * 10) st).2) :
    (simulateTransactionERC20 L h amountIn st preOut postOut thc txo).trace.approveCalled
        = true ∧
      (simulateTransactionERC20 L h amountIn st preOut postOut thc txo).trace.approveArgAmount
        = amountIn * 10 ∧
      (simulateTransactionERC20 L h amountIn st preOut postOut thc txo).trace.allowanceWritten
        = MAX_UINT256 := by
  have hc : ¬ (balanceOf L h (setERC20Balance L h (amountIn * 10) st).2 < amountIn) :=
    Nat.not_lt.mpr hbal
  cases txo with
  | throws msg => cases thc <;> refine ⟨?_, ?_, ?_⟩ <;>
      simp [simulateTransactionERC20, hinj, hc]
  | receipt success gasUsed => cases thc <;> cases success <;> refine ⟨?_, ?_, ?_⟩ <;>
      simp [simulateTransactionERC20, hinj, hc]

/-- Witness for C5 (amended) at a slot-0 token with amountIn 5. -/
theorem funded_10x_but_approved_max_witness :
    (simulateTransactionERC20 (.ks 0) 77 5 pristineState 0 0 true
        (.receipt true 21000)).trace.approveCalled = true ∧
      (simulateTransactionERC20 (.ks 0) 77 5 pristineState 0 0 true
        (.receipt true 21000)).trace.approveArgAmount = 5 * 10 ∧
      (simulateTransactionERC20 (.ks 0) 77 5 pristineState 0 0 true
        (.receipt true 21000)).trace.allowanceWritten = MAX_UINT256 :=
  funded_10x_but_approved_max (.ks 0) 77 5 pristineState 0 0 true (.receipt true 21000)
    (by decide) (by decide)

/-- C3: the retry wrapper in runComparison can never see a transaction
timeout.  Every path of `simulateTransaction` returns a result — the timeout
rethrown by the inner submission catch is caught again by the function-level
catch and becomes a status-"error" result — so the wrapper closure always
returns normally: the simulation is invoked exactly once, the fork is never
reset between attempts, and the recorded result is that of the first attempt, even
when a second attempt would have succeeded. -/
theorem swap_timeout_swallowed_no_retry :
    (∀ (L : TokenLayout) (h : Addr) (amountIn : Nat) (st : NodeState) (preOut postOut : Int)
        (thc : Bool) (txos : Nat → TxOutcome),
      (runSwapSimulationWithRetry (fun n =>
          .ok (simulateTransactionERC20 L h amountIn st preOut postOut thc (txos n)).res)).result
        = .ok (simulateTransactionERC20 L h amountIn st preOut postOut thc (txos 1)).res ∧
      (runSwapSimulationWithRetry (fun n =>
          .ok (simulateTransactionERC20 L h amountIn st preOut postOut thc (txos n)).res)).calls
        = 1 ∧
      (runSwapSimulationWithRetry (fun n =>
          .ok (simulateTransactionERC20 L h amountIn st preOut postOut thc
            (txos n)).res)).forkResets = 0) ∧
    (simulateTransactionERC20 (.ks 0) 77 5 pristineState 100 350 true
        (.throws "Transaction timed out after 600000ms")).res
      = ⟨"error", 0, none, some "Transaction timed out after 600000ms"⟩ ∧
    (runSwapSimulationWithRetry (fun n =>
        .ok (simulateTransactionERC20 (.ks 0) 77 5 pristineState 100 350 true
          (if n = 1 then .throws "Transaction timed out after 600000ms"
           else .receipt true 21000)).res)).result
      = .ok ⟨"error", 0, none, some "Transaction timed out after 600000ms"⟩ := by
  refine ⟨fun L h amountIn st preOut postOut thc txos => ?_, by decide, ?_⟩
  · exact ⟨rfl, rfl, rfl⟩
  · rfl
